import Mathlib

/-!
Verification of the Personal-Finance ETL pipeline
(src/config.py, src/transform.py, src/watch.py).

The transformation pipeline is embedded shallowly: pandas DataFrames become
lists of rows, cell values that may be missing become Option, a raw CSV cell
that pandas could not parse as a number stays a string (constructor
Amount.str), and every Python function that can raise becomes an
Except-valued Lean function.
-/

namespace ETL

/-! ### Regular-expression model

The configured patterns in config.py use only literal characters,
alternation, the any-character repetition point-star (which never crosses a
newline) and the whitespace repetition backslash-s-star, all with
IGNORECASE.  A pattern is a list of alternatives; an alternative is a list
of tokens; `search` looks for a match anywhere in the text, as re.search
does. -/

inductive Tok where
  | lit (c : Char)
  | anyStar
  | wsStar
deriving DecidableEq, Repr

abbrev Alt := List Tok

abbrev Pat := List Alt

def lowEq (a b : Char) : Bool := a.toLower == b.toLower

/-- Can the token list match the empty text?  Exactly when every token is
a star. -/
def tokensNullable : List Tok → Bool
  | [] => true
  | Tok.lit _ :: _ => false
  | Tok.anyStar :: ts => tokensNullable ts
  | Tok.wsStar :: ts => tokensNullable ts

/-- One character step of matching: given the first character x of the
remaining text and the matcher m for the rest of the text, decide whether
the token list can match a prefix of the text.  Point-star consumes any
characters except newline, backslash-s-star consumes whitespace; both may
consume nothing. -/
def matchStep (x : Char) (m : List Tok → Bool) : List Tok → Bool
  | [] => true
  | Tok.lit c :: ts => lowEq c x && m ts
  | Tok.anyStar :: ts =>
      matchStep x m ts || (x != '\n' && m (Tok.anyStar :: ts))
  | Tok.wsStar :: ts =>
      matchStep x m ts || (x.isWhitespace && m (Tok.wsStar :: ts))

/-- Can the token list match some prefix of the character list? -/
def matchAll : List Char → List Tok → Bool
  | [] => tokensNullable
  | x :: xs => matchStep x (matchAll xs)

/-- Search of a single alternative anywhere in the text, as re.search does: try every start position. -/
def altSearch (a : Alt) : List Char → Bool
  | [] => matchAll [] a
  | x :: xs => matchAll (x :: xs) a || altSearch a xs

/-- Search of a whole pattern, an alternation, as re.search does. -/
def search (p : Pat) (s : String) : Bool := p.any (fun a => altSearch a s.toList)

def litToks (s : String) : Alt := s.toList.map Tok.lit

def incomePat : Pat :=
  [ litToks "PAYCHECK", litToks "SALARY",
    litToks "DEPOSIT" ++ [Tok.anyStar] ++ litToks "EMPLOYER",
    litToks "DD" ++ [Tok.wsStar] ++ litToks "-",
    litToks "DIRECT" ++ [Tok.wsStar] ++ litToks "DEPOSIT" ]

def foodPat : Pat :=
  [ litToks "STARBUCKS", litToks "SBX", litToks "CHIPOTLE",
    litToks "7-ELEVEN", litToks "7-11", litToks "COFFEE",
    litToks "RESTAURANT", litToks "SAFA", litToks "CHOWMEIN",
    litToks "KHANA" ]

def entertainmentPat : Pat :=
  [ litToks "NETFLIX", litToks "SPOTIFY", litToks "HULU", litToks "DISNEY" ]

def transportPat : Pat :=
  [ litToks "UBER", litToks "LYFT", litToks "SHELL", litToks "FUEL",
    litToks "GAS", litToks "INDRIVE" ]

def groceriesPat : Pat :=
  [ litToks "WHOLE" ++ [Tok.wsStar] ++ litToks "FOODS", litToks "WFM",
    litToks "TRADER" ++ [Tok.wsStar] ++ litToks "JOE", litToks "COSTCO" ]

def billsPat : Pat :=
  [ litToks "RENT", litToks "LANDLORD", litToks "UTILITIES",
    litToks "ELECTRIC", litToks "WATER" ]

def shoppingPat : Pat :=
  [ litToks "AMZN", litToks "AMAZON" ++ [Tok.anyStar], litToks "TARGET",
    litToks "WALMART" ]

/-- CATEGORY_PATTERNS from config.py, in declaration order. -/
def CATEGORY_PATTERNS : List (String × Pat) :=
  [ ("Income", incomePat),
    ("Food & Dining", foodPat),
    ("Entertainment", entertainmentPat),
    ("Transportation", transportPat),
    ("Groceries", groceriesPat),
    ("Bills", billsPat),
    ("Shopping", shoppingPat) ]

/-! ### Categorization engine (transform.py, categorize_transaction) -/

/-- The rule loop of categorize_transaction: first matching rule wins,
no match gives "Other". -/
def catLoop (rules : List (String × Pat)) (d : String) : String :=
  match rules with
  | [] => "Other"
  | (label, p) :: rest => if search p d then label else catLoop rest d

/-- categorize_transaction from transform.py.  A missing description
(pandas NaN) is modelled as none and yields "Other" before any rule is
evaluated. -/
def categorize_transaction (rules : List (String × Pat))
    (description : Option String) : String :=
  match description with
  | none => "Other"
  | some d => catLoop rules d

/-! ### Amounts and transaction-type derivation (transform.py) -/

/-- A cell of the amount column as pandas hands it to apply: a float NaN
for a missing cell, a rational for a parsed number, or the raw string when
the CSV cell was not numeric. -/
inductive Amount where
  | nan
  | num (q : ℚ)
  | str (s : String)
deriving DecidableEq, Repr

def Amount.isNull : Amount → Bool
  | .nan => true
  | _ => false

def Amount.isStr : Amount → Bool
  | .str _ => true
  | _ => false

inductive PyError where
  | typeError
deriving DecidableEq, Repr

/-- derive_transaction_type from transform.py.  pd.isna is true only for
the NaN cell; comparing a str cell with 0 raises TypeError in Python 3. -/
def derive_transaction_type : Amount → Except PyError String
  | .nan => .ok "Unknown"
  | .num q => .ok (if q > 0 then "Credit" else if q < 0 then "Debit" else "Neutral")
  | .str _ => .error .typeError

/-! ### Dates (pd.to_datetime with format "%m/%d/%Y", errors="coerce") -/

structure Date where
  year : ℕ
  month : ℕ
  day : ℕ
deriving DecidableEq, Repr

def isLeapYear (y : ℕ) : Bool := y % 4 == 0 && (y % 100 != 0 || y % 400 == 0)

def daysInMonth (y m : ℕ) : ℕ :=
  if m == 1 || m == 3 || m == 5 || m == 7 || m == 8 || m == 10 || m == 12 then 31
  else if m == 4 || m == 6 || m == 9 || m == 11 then 30
  else if isLeapYear y then 29 else 28

/-- Split a character list on a separator character. -/
def splitOnChar (c : Char) : List Char → List (List Char)
  | [] => [[]]
  | x :: xs =>
    let r := splitOnChar c xs
    if x == c then [] :: r
    else
      match r with
      | [] => [[x]]
      | h :: t => (x :: h) :: t

def digitsToNat (s : List Char) : ℕ :=
  s.foldl (fun n c => 10 * n + (c.toNat - '0'.toNat)) 0

def isDigits (s : List Char) : Bool := s ≠ [] && s.all Char.isDigit

/-- Strict parse of the fixed DATE_FORMAT "%m/%d/%Y": one or two digits of
month, one or two digits of day, four digits of year, the entire string
consumed, with a real-calendar day check (to_datetime rejects impossible
dates). Returns none on failure, as errors="coerce" turns a failure into
NaT. -/
def parseDateMDY (s : String) : Option Date :=
  match splitOnChar '/' s.toList with
  | [ms, ds, ys] =>
    if isDigits ms && ms.length ≤ 2 && isDigits ds && ds.length ≤ 2
        && isDigits ys && ys.length == 4 then
      let m := digitsToNat ms
      let d := digitsToNat ds
      let y := digitsToNat ys
      if 1 ≤ m && m ≤ 12 && 1 ≤ d && d ≤ daysInMonth y m then
        some ⟨y, m, d⟩
      else none
    else none
  | _ => none

def natPad (width n : ℕ) : String :=
  let s := toString n
  if s.length < width then String.mk (List.replicate (width - s.length) '0') ++ s
  else s

/-- strftime "%Y-%m" of a parsed date: zero-padded year and month. -/
def monthYear (dt : Date) : String := natPad 4 dt.year ++ "-" ++ natPad 2 dt.month

/-! ### Data frames -/

/-- One row of the raw CSV as loaded by pd.read_csv: text cells may be
missing (NaN, modelled none); the amount cell is an Amount. The category
and transaction_type cells are passthrough values that the pipeline
overwrites. -/
structure RawRow where
  date : Option String
  description : Option String
  category : Option String
  transaction_type : Option String
  amount : Amount
deriving DecidableEq, Repr

/-- The raw DataFrame: its column names and its rows. -/
structure RawDF where
  cols : List String
  rows : List RawRow
deriving DecidableEq, Repr

def EXPECTED_COLUMNS : List String :=
  ["date", "description", "category", "transaction_type", "amount"]

/-- The typed failure taxonomy of the pipeline.  The Python code raises
ValueError for the schema, empty-input and quality failures and TypeError
from the amount comparison; the spec names them SchemaError,
EmptyInputError, QualityError. -/
inductive PipeError where
  | schemaError (missing : List String)
  | emptyInputError
  | typeError
  | qualityError (check : String)
deriving DecidableEq, Repr

instance {ε α : Type} [DecidableEq ε] [DecidableEq α] :
    DecidableEq (Except ε α) := fun x y =>
  match x, y with
  | .ok a, .ok b =>
    if h : a = b then isTrue (by rw [h])
    else isFalse (fun hc => h (by injection hc))
  | .error a, .error b =>
    if h : a = b then isTrue (by rw [h])
    else isFalse (fun hc => h (by injection hc))
  | .ok _, .error _ => isFalse (fun hc => Except.noConfusion hc)
  | .error _, .ok _ => isFalse (fun hc => Except.noConfusion hc)

/-- The required columns the batch lacks (the set difference
EXPECTED_COLUMNS minus df.columns, listed in required-column order). -/
def missingCols (df : RawDF) : List String :=
  EXPECTED_COLUMNS.filter (fun c => !(df.cols.contains c))

/-- validate_raw_data from transform.py: missing required columns are
reported first, then emptiness. -/
def validate_raw_data (df : RawDF) : Except PipeError Unit :=
  if missingCols df ≠ [] then .error (.schemaError (missingCols df))
  else if df.rows = [] then .error .emptyInputError
  else .ok ()

/-- The scan behind drop_duplicates: walk the rows in order carrying
the rows already kept; a row identical to an earlier kept row is removed,
any other row is kept. -/
def dedupSeen {α : Type} [DecidableEq α] (seen : List α) : List α → List α
  | [] => []
  | x :: xs =>
    if x ∈ seen then dedupSeen seen xs else x :: dedupSeen (x :: seen) xs

/-- The drop_duplicates operation of the frame: keep the first occurrence of each row, drop
every later row identical (across all columns) to an earlier one. -/
def drop_duplicates {α : Type} [DecidableEq α] (l : List α) : List α :=
  dedupSeen [] l

/-- One row of the cleaned DataFrame, after shaping and renaming. -/
structure CleanRow where
  transaction_date : Option Date
  transaction_desc : Option String
  category : Option String
  transaction_type : Option String
  amount : Amount
  month_year : Option String
deriving DecidableEq, Repr

/-- The cleaned DataFrame: rows plus the two column dtypes the clean gate
inspects (datetime64 for transaction_date, a numeric dtype for amount). -/
structure CleanDF where
  rows : List CleanRow
  dateDtypeDatetime : Bool
  amountDtypeNumeric : Bool
deriving DecidableEq, Repr

/-- The quality checks of validate_clean_data, in the fixed order the code
declares and tests them. -/
def cleanChecks (df : CleanDF) : List (String × Bool) :=
  [ ("No nulls in date", df.rows.all (fun r => r.transaction_date.isSome)),
    ("No nulls in amount", df.rows.all (fun r => !(r.amount.isNull))),
    ("Date is datetime", df.dateDtypeDatetime),
    ("Amount is numeric", df.amountDtypeNumeric),
    ("All categories assigned", df.rows.all (fun r => r.category.isSome)),
    ("All transaction types assigned",
      df.rows.all (fun r => r.transaction_type.isSome)) ]

def firstFailing : List (String × Bool) → Option String
  | [] => none
  | (nm, ok) :: rest => if ok then firstFailing rest else some nm

/-- validate_clean_data from transform.py: walk the checks in order and
raise naming the first failing one. -/
def validate_clean_data (df : CleanDF) : Except PipeError Unit :=
  match firstFailing (cleanChecks df) with
  | some nm => .error (.qualityError nm)
  | none => .ok ()

/-! ### The transformation pipeline (clean_transaction_data) -/

/-- Apply derive_transaction_type down the amount column; the first
TypeError aborts, as DataFrame.apply does. -/
def deriveAll : List RawRow → Except PipeError (List String)
  | [] => .ok []
  | r :: rs =>
    match derive_transaction_type r.amount with
    | .error _ => .error .typeError
    | .ok t =>
      match deriveAll rs with
      | .error e => .error e
      | .ok ts => .ok (t :: ts)

/-- The transaction type of one row on the success path of deriveAll.
The impossible default is never reached once deriveAll has succeeded. -/
def deriveLabel (a : Amount) : String :=
  match derive_transaction_type a with
  | .ok t => t
  | .error _ => "<TypeError>"

/-- Parse one date cell as pd.to_datetime does: NaN stays NaT. -/
def rowDate (r : RawRow) : Option Date := r.date.bind parseDateMDY

/-- Shape one surviving row into its CleanRow (steps 3, 4 and 6 of the
pipeline, with the database-friendly renames). -/
def shapeRow (r : RawRow) (dt : Date) : CleanRow :=
  { transaction_date := some dt,
    transaction_desc := r.description,
    category := some (categorize_transaction CATEGORY_PATTERNS r.description),
    transaction_type := some (deriveLabel r.amount),
    amount := r.amount,
    month_year := some (monthYear dt) }

/-- clean_transaction_data from transform.py: raw validation, dedup,
categorization, type derivation, date parsing with row drops, shaping,
clean validation.  The dtype of the amount column is numeric exactly when
no loaded cell kept its raw string form; transaction_date always has
datetime dtype after to_datetime. -/
def clean_transaction_data (df : RawDF) : Except PipeError CleanDF :=
  match validate_raw_data df with
  | .error e => .error e
  | .ok _ =>
    let rows := drop_duplicates df.rows
    match deriveAll rows with
    | .error e => .error e
    | .ok _ =>
      let cleanRows := rows.filterMap (fun r => (rowDate r).map (shapeRow r))
      let cdf : CleanDF :=
        ⟨cleanRows, true, rows.all (fun r => !(r.amount.isStr))⟩
      match validate_clean_data cdf with
      | .error e => .error e
      | .ok _ => .ok cdf

/-- Count of rows dropped for an unparseable date (reported, not raised). -/
def invalidDateCount (rows : List RawRow) : ℕ :=
  (rows.filter (fun r => (rowDate r).isNone)).length

/-! ### Watcher failure route (watch.py) -/

/-- The left-to-right scan of Python str.replace, replacing every
non-overlapping occurrence of pat.  The fuel argument bounds the number of
scan steps; since every step consumes at least one character, the length
of the text is enough fuel (the pattern used below, ".csv", is never
empty). -/
def replaceGo (pat rep : List Char) : List Char → ℕ → List Char
  | s, 0 => s
  | [], _ + 1 => []
  | x :: xs, fuel + 1 =>
    if pat.isPrefixOf (x :: xs) then
      rep ++ replaceGo pat rep ((x :: xs).drop pat.length) fuel
    else
      x :: replaceGo pat rep xs fuel

/-- Python str.replace(pat, rep) for a non-empty pattern. -/
def strReplace (s pat rep : String) : String :=
  if pat.toList = [] then s
  else String.mk (replaceGo pat.toList rep.toList s.toList s.toList.length)

/-- What move_to_failed leaves on disk: the moved file name, the error-log
file name, and the lines of the error log (each written with a trailing
newline). -/
structure FailedArtifact where
  movedName : String
  errorLogName : String
  logLines : List String
deriving DecidableEq, Repr

/-- move_to_failed from watch.py. -/
def move_to_failed (timestamp filename errMsg : String) : FailedArtifact :=
  let newName := timestamp ++ "_" ++ filename
  { movedName := newName,
    errorLogName := strReplace newName ".csv" "_ERROR.txt",
    logLines := [ "Error at: " ++ timestamp,
                  "File: " ++ filename,
                  "Error: " ++ errMsg ] }

/-- The message text of each pipeline error, as rendered into the error artifact. -/
def errMessage : PipeError → String
  | .schemaError missing =>
      "Missing required columns: " ++ String.intercalate ", " missing
  | .emptyInputError => "DataFrame is empty"
  | .typeError => "unsupported comparison between str and int"
  | .qualityError nm => "Validation failed: " ++ nm

/-- The terminal route of one file through process_file. -/
inductive Route where
  | processed (movedName : String)
  | failed (artifact : FailedArtifact)
deriving DecidableEq, Repr

/-- process_file from watch.py: extract and transform, then insert; any
error from either step is caught at this boundary and becomes the failure
route; success moves the file to the processed folder.  The insert
collaborator is abstracted as a function that may fail with a message. -/
def process_file (timestamp filename : String) (df : RawDF)
    (insertRows : CleanDF → Except String ℕ) : Route :=
  match clean_transaction_data df with
  | .error e => .failed (move_to_failed timestamp filename (errMessage e))
  | .ok cdf =>
    match insertRows cdf with
    | .error msg => .failed (move_to_failed timestamp filename msg)
    | .ok _ => .processed (timestamp ++ "_" ++ filename)

/-! ## Theorems -/

/-- Every label the rule loop returns is "Other" or the label of one of
the rules. -/
theorem catLoop_mem (rules : List (String × Pat)) (d : String) :
    catLoop rules d = "Other" ∨ catLoop rules d ∈ rules.map Prod.fst := by
  induction rules with
  | nil => exact Or.inl rfl
  | cons r rest ih =>
    obtain ⟨label, p⟩ := r
    simp only [catLoop, List.map_cons]
    by_cases h : search p d
    · simp [h]
    · simp only [h, if_false]
      rcases ih with h1 | h1
      · exact Or.inl h1
      · exact Or.inr (List.mem_cons_of_mem _ h1)

/-- C1: For every rule set and every input description (including an
absent one, modelled none, and the empty string), categorize_transaction
returns exactly one label that is either one of the configured category
labels or "Other"; it is deterministic (it is a pure function, so equal
inputs give equal outputs), an absent description yields "Other", and the
empty string yields "Other" under the configured CATEGORY_PATTERNS since
none of those patterns matches the empty string. -/
theorem C1_categorize_total_deterministic :
    (∀ (rules : List (String × Pat)) (d : Option String),
        categorize_transaction rules d = "Other" ∨
          categorize_transaction rules d ∈ rules.map Prod.fst) ∧
    (∀ (rules : List (String × Pat)) (d₁ d₂ : Option String), d₁ = d₂ →
        categorize_transaction rules d₁ = categorize_transaction rules d₂) ∧
    (∀ rules : List (String × Pat),
        categorize_transaction rules none = "Other") ∧
    categorize_transaction CATEGORY_PATTERNS (some "") = "Other" := by
  refine ⟨?_, ?_, ?_, ?_⟩
  · intro rules d
    cases d with
    | none => exact Or.inl rfl
    | some d => exact catLoop_mem rules d
  · intro rules d₁ d₂ h
    rw [h]
  · intro rules
    rfl
  · decide

/-- Witness for C1 at concrete inputs: the determinism conjunct applied
to the same concrete description twice. -/
theorem C1_witness :
    categorize_transaction CATEGORY_PATTERNS (some "NETFLIX") =
      categorize_transaction CATEGORY_PATTERNS (some "NETFLIX") :=
  C1_categorize_total_deterministic.2.1 CATEGORY_PATTERNS
    (some "NETFLIX") (some "NETFLIX") rfl

/-- C2: rules are evaluated in declaration order and the first matching
rule wins: whatever rules come after a matching rule, and however many of
them also match, the label of the first matching rule is returned. -/
theorem C2_first_match_wins (pre post : List (String × Pat))
    (r : String × Pat) (d : String)
    (hpre : ∀ r' ∈ pre, search r'.2 d = false)
    (hr : search r.2 d = true) :
    categorize_transaction (pre ++ r :: post) (some d) = r.1 := by
  induction pre with
  | nil =>
    simp only [categorize_transaction, List.nil_append]
    obtain ⟨label, p⟩ := r
    simp [catLoop, hr]
  | cons q pre' ih =>
    have hq : search q.2 d = false := hpre q (List.mem_cons_self q pre')
    have hrest : ∀ r' ∈ pre', search r'.2 d = false :=
      fun r' hr' => hpre r' (List.mem_cons_of_mem q hr')
    obtain ⟨ql, qp⟩ := q
    simpa [categorize_transaction, catLoop, hq] using ih hrest

/-- Witness for C2: "SHELL WALMART" matches both the Transportation rule
and the later Shopping rule; the earlier Transportation rule wins.  The
second conjunct checks that the split rule list is exactly
CATEGORY_PATTERNS. -/
theorem C2_witness :
    categorize_transaction
        ([("Income", incomePat), ("Food & Dining", foodPat),
          ("Entertainment", entertainmentPat)] ++
          ("Transportation", transportPat) ::
          [("Groceries", groceriesPat), ("Bills", billsPat),
           ("Shopping", shoppingPat)]) (some "SHELL WALMART") =
      "Transportation" ∧
    [("Income", incomePat), ("Food & Dining", foodPat),
      ("Entertainment", entertainmentPat)] ++
      ("Transportation", transportPat) ::
      [("Groceries", groceriesPat), ("Bills", billsPat),
       ("Shopping", shoppingPat)] = CATEGORY_PATTERNS ∧
    search shoppingPat "SHELL WALMART" = true :=
  ⟨C2_first_match_wins _ _ _ _ (by decide) (by decide), rfl, by decide⟩

/-- C3 counterexample: a present but non-numeric amount cell (the raw
string kept by read_csv when the CSV value is unparseable, here "abc") is
not NaN, so pd.isna is false and the comparison amount > 0 raises
TypeError; the function neither returns "Unknown" nor any other label. -/
theorem C3_counterexample :
    derive_transaction_type (Amount.str "abc") = .error .typeError ∧
    ∀ l : String, derive_transaction_type (Amount.str "abc") ≠ .ok l := by
  refine ⟨rfl, ?_⟩
  intro l h
  exact Except.noConfusion h

/-- C3 (amended): for an absent amount (NaN) or a present numeric amount
derive_transaction_type never fails and returns exactly one of the four
labels: "Credit" if positive, "Debit" if negative, "Neutral" if zero,
"Unknown" if absent; a present non-numeric amount instead raises a
TypeError rather than returning "Unknown". -/
theorem C3_type_derivation :
    derive_transaction_type Amount.nan = .ok "Unknown" ∧
    (∀ q : ℚ, 0 < q → derive_transaction_type (.num q) = .ok "Credit") ∧
    (∀ q : ℚ, q < 0 → derive_transaction_type (.num q) = .ok "Debit") ∧
    derive_transaction_type (.num 0) = .ok "Neutral" ∧
    (∀ a : Amount, a.isStr = false →
        ∃ l, derive_transaction_type a = .ok l ∧
          (l = "Credit" ∨ l = "Debit" ∨ l = "Neutral" ∨ l = "Unknown")) ∧
    (∀ s : String, derive_transaction_type (.str s) = .error .typeError) := by
  refine ⟨rfl, ?_, ?_, by norm_num [derive_transaction_type], ?_, fun s => rfl⟩
  · intro q h
    simp [derive_transaction_type, h]
  · intro q h
    simp [derive_transaction_type, h, not_lt_of_lt h, asymm h]
  · intro a ha
    cases a with
    | nan => exact ⟨"Unknown", rfl, by simp⟩
    | num q =>
      rcases lt_trichotomy q 0 with h | h | h
      · exact ⟨"Debit", by simp [derive_transaction_type, h, asymm h], by simp⟩
      · exact ⟨"Neutral", by simp [derive_transaction_type, h], by simp⟩
      · exact ⟨"Credit", by simp [derive_transaction_type, h], by simp⟩
    | str s => simp [Amount.isStr] at ha

/-- Witness for C3 at concrete amounts. -/
theorem C3_witness :
    derive_transaction_type (.num 3) = .ok "Credit" ∧
    derive_transaction_type (.num (-4.5)) = .ok "Debit" :=
  ⟨C3_type_derivation.2.1 3 (by norm_num),
   C3_type_derivation.2.2.1 (-4.5) (by norm_num)⟩

/-- C4 counterexample: a batch with zero rows that also lacks required
columns (here a frame with no columns at all) fails with the SchemaError,
not with the EmptyInputError, because the column check runs first; so "the
raw gate fails with EmptyInputError whenever the batch has zero rows" does
not hold as stated. -/
theorem C4_counterexample :
    (RawDF.mk [] []).rows = [] ∧
    validate_raw_data ⟨[], []⟩ = .error (.schemaError EXPECTED_COLUMNS) ∧
    validate_raw_data ⟨[], []⟩ ≠ .error .emptyInputError :=
  ⟨rfl, by decide, by decide⟩

/-- C4 (amended): the raw gate fails with SchemaError naming the missing
columns whenever the batch lacks any required column, and fails with
EmptyInputError whenever the batch has all required columns but zero rows
(on a batch that is both column-deficient and empty the SchemaError takes
precedence); either failure is the result of the whole pipeline, so the
file is aborted before any row-level work; a batch with all required
columns and at least one row passes the gate. -/
theorem C4_raw_gate (df : RawDF) :
    (missingCols df ≠ [] →
        validate_raw_data df = .error (.schemaError (missingCols df)) ∧
        clean_transaction_data df = .error (.schemaError (missingCols df))) ∧
    (missingCols df = [] → df.rows = [] →
        validate_raw_data df = .error .emptyInputError ∧
        clean_transaction_data df = .error .emptyInputError) ∧
    (missingCols df = [] → df.rows ≠ [] → validate_raw_data df = .ok ()) := by
  refine ⟨fun h => ?_, fun h1 h2 => ?_, fun h1 h2 => ?_⟩
  · have hv : validate_raw_data df = .error (.schemaError (missingCols df)) := by
      simp [validate_raw_data, h]
    exact ⟨hv, by simp [clean_transaction_data, hv]⟩
  · have hv : validate_raw_data df = .error .emptyInputError := by
      simp [validate_raw_data, h1, h2]
    exact ⟨hv, by simp [clean_transaction_data, hv]⟩
  · simp [validate_raw_data, h1, h2]

/-- Witness for C4 at concrete batches: a batch missing the amount column
fails with SchemaError naming it, an empty batch with all columns fails
with EmptyInputError, and a one-row batch with all columns passes. -/
theorem C4_witness :
    validate_raw_data ⟨["date", "description", "category",
        "transaction_type"], [⟨none, none, none, none, .nan⟩]⟩ =
      .error (.schemaError ["amount"]) ∧
    validate_raw_data ⟨EXPECTED_COLUMNS, []⟩ = .error .emptyInputError ∧
    validate_raw_data ⟨EXPECTED_COLUMNS, [⟨none, none, none, none, .nan⟩]⟩ =
      .ok () :=
  ⟨((C4_raw_gate _).1 (by decide)).1,
   ((C4_raw_gate _).2.1 (by decide) rfl).1,
   (C4_raw_gate _).2.2 (by decide) (by decide)⟩

/-- firstFailing finds nothing exactly when every check passed. -/
theorem firstFailing_none_iff (l : List (String × Bool)) :
    firstFailing l = none ↔ ∀ p ∈ l, p.2 = true := by
  induction l with
  | nil => simp [firstFailing]
  | cons p rest ih =>
    obtain ⟨nm, ok⟩ := p
    cases ok with
    | true => simp [firstFailing, ih]
    | false => simp [firstFailing]

/-- The clean gate accepts exactly when every quality check passes. -/
theorem validate_clean_ok_iff (df : CleanDF) :
    validate_clean_data df = .ok () ↔ ∀ p ∈ cleanChecks df, p.2 = true := by
  unfold validate_clean_data
  cases h : firstFailing (cleanChecks df) with
  | none => simpa using (firstFailing_none_iff _).mp h
  | some nm =>
    simp only [reduceCtorEq, false_iff]
    intro hall
    rw [(firstFailing_none_iff _).mpr hall] at h
    exact Option.noConfusion h

/-- C5: clean-gate soundness.  A batch accepted by validate_clean_data
has no null dates, no null amounts, a numeric amount column, no null
categories and no null transaction types; and whenever any of these
checks fails, the validator raises QualityError naming the first failing
check in the fixed declared check order (which also includes the datetime
dtype check between the null checks and the numeric check). -/
theorem C5_clean_gate (df : CleanDF) :
    (validate_clean_data df = .ok () →
        df.rows.all (fun r => r.transaction_date.isSome) = true ∧
        df.rows.all (fun r => !(r.amount.isNull)) = true ∧
        df.amountDtypeNumeric = true ∧
        df.rows.all (fun r => r.category.isSome) = true ∧
        df.rows.all (fun r => r.transaction_type.isSome) = true) ∧
    (¬ (df.rows.all (fun r => r.transaction_date.isSome) = true ∧
        df.rows.all (fun r => !(r.amount.isNull)) = true ∧
        df.amountDtypeNumeric = true ∧
        df.rows.all (fun r => r.category.isSome) = true ∧
        df.rows.all (fun r => r.transaction_type.isSome) = true) →
      ∃ nm, firstFailing (cleanChecks df) = some nm ∧
        validate_clean_data df = .error (.qualityError nm)) := by
  constructor
  · intro h
    have hall := (validate_clean_ok_iff df).mp h
    simp only [cleanChecks, List.mem_cons, List.not_mem_nil, or_false,
      forall_eq_or_imp, forall_eq] at hall
    exact ⟨hall.1, hall.2.1, hall.2.2.2.1, hall.2.2.2.2.1, hall.2.2.2.2.2⟩
  · intro h
    cases hf : firstFailing (cleanChecks df) with
    | none =>
      exfalso
      apply h
      have hall := (firstFailing_none_iff _).mp hf
      simp only [cleanChecks, List.mem_cons, List.not_mem_nil, or_false,
        forall_eq_or_imp, forall_eq] at hall
      exact ⟨hall.1, hall.2.1, hall.2.2.2.1, hall.2.2.2.2.1, hall.2.2.2.2.2⟩
    | some nm =>
      exact ⟨nm, rfl, by simp [validate_clean_data, hf]⟩

/-- Witness for C5: a good one-row clean batch is accepted and satisfies
the five properties, and a batch whose only flaw is a null category is
rejected with the QualityError naming that check. -/
theorem C5_witness :
    ((CleanDF.mk [⟨some ⟨2024, 1, 5⟩, some "d", some "Other", some "Debit",
        .num 1, some "2024-01"⟩] true true).rows.all
          (fun r => r.transaction_date.isSome) = true ∧
      (CleanDF.mk [⟨some ⟨2024, 1, 5⟩, some "d", some "Other", some "Debit",
        .num 1, some "2024-01"⟩] true true).rows.all
          (fun r => !(r.amount.isNull)) = true ∧
      (CleanDF.mk [⟨some ⟨2024, 1, 5⟩, some "d", some "Other", some "Debit",
        .num 1, some "2024-01"⟩] true true).amountDtypeNumeric = true ∧
      (CleanDF.mk [⟨some ⟨2024, 1, 5⟩, some "d", some "Other", some "Debit",
        .num 1, some "2024-01"⟩] true true).rows.all
          (fun r => r.category.isSome) = true ∧
      (CleanDF.mk [⟨some ⟨2024, 1, 5⟩, some "d", some "Other", some "Debit",
        .num 1, some "2024-01"⟩] true true).rows.all
          (fun r => r.transaction_type.isSome) = true) ∧
    (∃ nm, firstFailing (cleanChecks (CleanDF.mk
        [⟨some ⟨2024, 1, 5⟩, some "d", none, some "Debit",
          .num 1, some "2024-01"⟩] true true)) = some nm ∧
      validate_clean_data (CleanDF.mk
        [⟨some ⟨2024, 1, 5⟩, some "d", none, some "Debit",
          .num 1, some "2024-01"⟩] true true) =
        .error (.qualityError nm)) :=
  ⟨(C5_clean_gate _).1 (by decide), (C5_clean_gate _).2 (by decide)⟩

/-- Deduplicating a second time over the same carried set changes
nothing. -/
theorem dedupSeen_idem {α : Type} [DecidableEq α] (l : List α) :
    ∀ seen : List α, dedupSeen seen (dedupSeen seen l) = dedupSeen seen l := by
  induction l with
  | nil => intro seen; rfl
  | cons x xs ih =>
    intro seen
    by_cases h : x ∈ seen
    · simp [dedupSeen, h, ih]
    · simp [dedupSeen, h, ih]

/-- Membership in the dedup scan output. -/
theorem mem_dedupSeen {α : Type} [DecidableEq α] (l : List α) :
    ∀ (seen : List α) (x : α),
      x ∈ dedupSeen seen l ↔ x ∈ l ∧ x ∉ seen := by
  induction l with
  | nil => intro seen x; simp [dedupSeen]
  | cons a xs ih =>
    intro seen x
    by_cases h : a ∈ seen
    · simp only [dedupSeen, if_pos h, ih, List.mem_cons]
      constructor
      · rintro ⟨hm, hs⟩
        exact ⟨Or.inr hm, hs⟩
      · rintro ⟨hm | hm, hs⟩
        · exact absurd (hm ▸ h) hs
        · exact ⟨hm, hs⟩
    · simp only [dedupSeen, if_neg h, List.mem_cons, ih, not_or]
      by_cases hx : x = a
      · subst hx
        simp [h]
      · simp [hx]

/-- The dedup scan only removes rows: its output is a sublist of its
input, in input order. -/
theorem dedupSeen_sublist {α : Type} [DecidableEq α] (l : List α) :
    ∀ seen : List α, List.Sublist (dedupSeen seen l) l := by
  induction l with
  | nil => intro seen; exact List.Sublist.refl []
  | cons x xs ih =>
    intro seen
    by_cases h : x ∈ seen
    · simpa [dedupSeen, h] using List.Sublist.cons x (ih seen)
    · simpa [dedupSeen, h] using List.Sublist.cons₂ x (ih (x :: seen))

/-- The dedup scan output has no duplicate rows left. -/
theorem dedupSeen_nodup {α : Type} [DecidableEq α] (l : List α) :
    ∀ seen : List α, (dedupSeen seen l).Nodup := by
  induction l with
  | nil => intro seen; simp [dedupSeen]
  | cons x xs ih =>
    intro seen
    by_cases h : x ∈ seen
    · simpa [dedupSeen, h] using ih seen
    · simp only [dedupSeen, if_neg h, List.nodup_cons]
      refine ⟨fun hmem => ?_, ih (x :: seen)⟩
      exact ((mem_dedupSeen xs (x :: seen) x).mp hmem).2 (List.mem_cons_self x seen)

/-- C6: deduplication is idempotent; it only removes rows (the result is
a duplicate-free sublist of the input with the same row set), dropping
exactly the rows identical across all columns to an earlier row; it runs
on the raw rows, before any transformation (in clean_transaction_data it
is applied to df.rows directly and every later stage consumes its
output); for two identical input rows one record remains, the reported
duplicate count (initial row count minus remaining row count) is 1, and
the pipeline run on such a batch succeeds with exactly one clean record
rather than erroring. -/
theorem C6_dedup_idempotent :
    (∀ l : List RawRow, drop_duplicates (drop_duplicates l) = drop_duplicates l) ∧
    (∀ l : List RawRow, List.Sublist (drop_duplicates l) l ∧ (drop_duplicates l).Nodup ∧
        ∀ x : RawRow, x ∈ drop_duplicates l ↔ x ∈ l) ∧
    (∀ r : RawRow, drop_duplicates [r, r] = [r] ∧
        [r, r].length - (drop_duplicates [r, r]).length = 1) ∧
    ((clean_transaction_data ⟨EXPECTED_COLUMNS,
        [⟨some "01/05/2024", some "STARBUCKS #123", none, none, .num (Rat.divInt (-9) 2)⟩,
         ⟨some "01/05/2024", some "STARBUCKS #123", none, none,
           .num (Rat.divInt (-9) 2)⟩]⟩).map (fun c => c.rows.length) = .ok 1 ∧
      [⟨some "01/05/2024", some "STARBUCKS #123", none, none,
          .num (Rat.divInt (-9) 2)⟩,
        (⟨some "01/05/2024", some "STARBUCKS #123", none, none,
          .num (Rat.divInt (-9) 2)⟩ : RawRow)].length -
        (drop_duplicates
          [⟨some "01/05/2024", some "STARBUCKS #123", none, none,
             .num (Rat.divInt (-9) 2)⟩,
           (⟨some "01/05/2024", some "STARBUCKS #123", none, none,
             .num (Rat.divInt (-9) 2)⟩ : RawRow)]).length = 1) := by
  refine ⟨fun l => dedupSeen_idem l [], fun l => ?_, fun r => ?_, ?_, ?_⟩
  · refine ⟨dedupSeen_sublist l [], dedupSeen_nodup l [], fun x => ?_⟩
    simpa using mem_dedupSeen l [] x
  · constructor <;> simp [drop_duplicates, dedupSeen]
  · decide
  · decide

/-- C8 (Scenario A): the single input row with date "01/05/2024",
description "STARBUCKS #123" and amount -4.50 (written here as the
rational divInt of -9 by 2; the second conjunct checks that this is the
literal -4.5), with all required columns present, produces exactly one
clean record with category "Food & Dining", transaction type "Debit",
date 2024-01-05 parsed per the fixed month/day/year format, and period
key month_year "2024-01". -/
theorem C8_scenario_a :
    clean_transaction_data ⟨EXPECTED_COLUMNS,
        [⟨some "01/05/2024", some "STARBUCKS #123", none, none,
          .num (Rat.divInt (-9) 2)⟩]⟩ =
      .ok ⟨[⟨some ⟨2024, 1, 5⟩, some "STARBUCKS #123", some "Food & Dining",
          some "Debit", .num (Rat.divInt (-9) 2), some "2024-01"⟩],
        true, true⟩ ∧
    Rat.divInt (-9) 2 = (-4.5 : ℚ) := by
  constructor
  · decide
  · rw [Rat.divInt_eq_div]
    norm_num

/-- Applying the type derivation down a column with no string cell never
raises and labels every row. -/
theorem deriveAll_ok (l : List RawRow)
    (h : ∀ r ∈ l, r.amount.isStr = false) :
    deriveAll l = .ok (l.map (fun r => deriveLabel r.amount)) := by
  induction l with
  | nil => rfl
  | cons r rs ih =>
    have hr : r.amount.isStr = false := h r (List.mem_cons_self r rs)
    have hd : ∃ t, derive_transaction_type r.amount = .ok t := by
      cases ha : r.amount with
      | nan => exact ⟨_, rfl⟩
      | num q => exact ⟨_, rfl⟩
      | str s => rw [ha] at hr; simp [Amount.isStr] at hr
    obtain ⟨t, ht⟩ := hd
    have ih2 := ih (fun r' hr' => h r' (List.mem_cons_of_mem _ hr'))
    simp [deriveAll, ht, ih2, deriveLabel]

/-- Every clean row comes from a surviving raw row shaped at its parsed
date. -/
theorem mem_cleanRows {rows : List RawRow} {c : CleanRow}
    (hc : c ∈ rows.filterMap (fun r => (rowDate r).map (shapeRow r))) :
    ∃ r ∈ rows, ∃ dt, rowDate r = some dt ∧ c = shapeRow r dt := by
  obtain ⟨r, hr, heq⟩ := List.mem_filterMap.mp hc
  cases hdt : rowDate r with
  | none => rw [hdt] at heq; exact absurd heq (by simp)
  | some dt =>
    rw [hdt] at heq
    simp only [Option.map_some', Option.some.injEq] at heq
    exact ⟨r, hr, dt, hdt, heq.symm⟩

/-- If the raw gate passes, no amount cell is a string, and every row
whose date parses has a present amount, the whole pipeline succeeds and
returns exactly the shaped surviving rows: the deduplicated rows whose
date parses under the fixed format. -/
theorem pipeline_ok (df : RawDF)
    (hv : validate_raw_data df = .ok ())
    (hstr : ∀ r ∈ df.rows, r.amount.isStr = false)
    (hnan : ∀ r ∈ df.rows, (rowDate r).isSome = true → r.amount ≠ Amount.nan) :
    clean_transaction_data df =
      .ok ⟨(drop_duplicates df.rows).filterMap
            (fun r => (rowDate r).map (shapeRow r)), true, true⟩ := by
  have hmem : ∀ r ∈ drop_duplicates df.rows, r ∈ df.rows :=
    fun r hr => ((mem_dedupSeen df.rows [] r).mp hr).1
  have hstr2 : ∀ r ∈ drop_duplicates df.rows, r.amount.isStr = false :=
    fun r hr => hstr r (hmem r hr)
  have hall : (drop_duplicates df.rows).all (fun r => !(r.amount.isStr)) = true := by
    rw [List.all_eq_true]
    intro r hr
    simp [hstr2 r hr]
  have hderive := deriveAll_ok _ hstr2
  have hclean : validate_clean_data
      ⟨(drop_duplicates df.rows).filterMap
        (fun r => (rowDate r).map (shapeRow r)), true, true⟩ = .ok () := by
    apply (validate_clean_ok_iff _).mpr
    intro p hp
    simp only [cleanChecks, List.mem_cons, List.not_mem_nil, or_false] at hp
    rcases hp with h | h | h | h | h | h <;> subst h
    · rw [List.all_eq_true]
      intro c hc
      obtain ⟨r, _, dt, _, hceq⟩ := mem_cleanRows hc
      simp [hceq, shapeRow]
    · rw [List.all_eq_true]
      intro c hc
      obtain ⟨r, hr, dt, hdt, hceq⟩ := mem_cleanRows hc
      have hne : r.amount ≠ Amount.nan :=
        hnan r (hmem r hr) (by rw [hdt]; rfl)
      subst hceq
      cases ha : r.amount with
      | nan => exact absurd ha hne
      | num q => simp [shapeRow, ha, Amount.isNull]
      | str s => simp [shapeRow, ha, Amount.isNull]
    · rfl
    · rfl
    · rw [List.all_eq_true]
      intro c hc
      obtain ⟨r, _, dt, _, hceq⟩ := mem_cleanRows hc
      simp [hceq, shapeRow]
    · rw [List.all_eq_true]
      intro c hc
      obtain ⟨r, _, dt, _, hceq⟩ := mem_cleanRows hc
      simp [hceq, shapeRow]
  simp only [clean_transaction_data, hv, hderive, hall]
  simp [hclean]

/-- A list splits into the rows a predicate keeps and the rows it
drops. -/
theorem length_filter_split {α : Type} (p : α → Bool) (l : List α) :
    (l.filter p).length + (l.filter (fun a => !(p a))).length = l.length := by
  induction l with
  | nil => rfl
  | cons x xs ih =>
    by_cases h : p x <;> simp [h, List.filter_cons] <;> omega

/-- C7 counterexample: a two-row batch passing the raw gate, whose second
row is fully valid with a parseable date and whose only other row has an
unparseable date, still makes the whole pipeline fail - because that
to-be-dropped row carries a non-numeric (string) amount and the type
derivation raises TypeError before the date-drop stage.  So "the pipeline
still succeeds and returns exactly the surviving rows" does not hold as
stated. -/
theorem C7_counterexample :
    validate_raw_data ⟨EXPECTED_COLUMNS,
        [⟨some "baddate", some "stuff", none, none, .str "abc"⟩,
         ⟨some "01/05/2024", some "desc", none, none, .num 5⟩]⟩ = .ok () ∧
    rowDate ⟨some "01/05/2024", some "desc", none, none, .num 5⟩ =
      some ⟨2024, 1, 5⟩ ∧
    clean_transaction_data ⟨EXPECTED_COLUMNS,
        [⟨some "baddate", some "stuff", none, none, .str "abc"⟩,
         ⟨some "01/05/2024", some "desc", none, none, .num 5⟩]⟩ =
      .error .typeError := by
  refine ⟨by decide, by decide, by decide⟩

/-- C7 (amended): a row whose date string does not parse against the
fixed format is dropped rather than failing the batch, and the dropped
count (kept plus dropped equals total) is reported; for every batch that
passes the raw gate, has no non-numeric string amount cell, has at least
one row with a parseable date, and whose surviving rows all carry a
present amount, the pipeline succeeds and returns exactly the shaped
surviving rows. -/
theorem C7_unparseable_date_dropped (df : RawDF)
    (hv : validate_raw_data df = .ok ())
    (hstr : ∀ r ∈ df.rows, r.amount.isStr = false)
    (hnan : ∀ r ∈ df.rows, (rowDate r).isSome = true → r.amount ≠ Amount.nan)
    (_hone : ∃ r ∈ df.rows, (rowDate r).isSome = true) :
    clean_transaction_data df =
      .ok ⟨(drop_duplicates df.rows).filterMap
            (fun r => (rowDate r).map (shapeRow r)), true, true⟩ ∧
    ((drop_duplicates df.rows).filter (fun r => (rowDate r).isSome)).length
        + invalidDateCount (drop_duplicates df.rows)
      = (drop_duplicates df.rows).length := by
  refine ⟨pipeline_ok df hv hstr hnan, ?_⟩
  have hfun : (fun r : RawRow => (rowDate r).isNone) =
      (fun r : RawRow => !((rowDate r).isSome)) := by
    funext r
    cases rowDate r <;> rfl
  rw [invalidDateCount, hfun]
  exact length_filter_split _ _

/-- Witness for C7: a two-row batch whose first row has an unparseable
date but a numeric amount; the pipeline succeeds and returns exactly the
one shaped surviving row, with one kept row plus one dropped row equal to
two. -/
theorem C7_witness :
    clean_transaction_data ⟨EXPECTED_COLUMNS,
        [⟨some "baddate", some "stuff", none, none, .num 7⟩,
         ⟨some "01/05/2024", some "STARBUCKS #123", none, none,
           .num (Rat.divInt (-9) 2)⟩]⟩ =
      .ok ⟨(drop_duplicates
            [⟨some "baddate", some "stuff", none, none, .num 7⟩,
             (⟨some "01/05/2024", some "STARBUCKS #123", none, none,
               .num (Rat.divInt (-9) 2)⟩ : RawRow)]).filterMap
            (fun r => (rowDate r).map (shapeRow r)), true, true⟩ ∧
    ((drop_duplicates
        [⟨some "baddate", some "stuff", none, none, .num 7⟩,
         (⟨some "01/05/2024", some "STARBUCKS #123", none, none,
           .num (Rat.divInt (-9) 2)⟩ : RawRow)]).filter
        (fun r => (rowDate r).isSome)).length
        + invalidDateCount (drop_duplicates
            [⟨some "baddate", some "stuff", none, none, .num 7⟩,
             (⟨some "01/05/2024", some "STARBUCKS #123", none, none,
               .num (Rat.divInt (-9) 2)⟩ : RawRow)])
      = (drop_duplicates
          [⟨some "baddate", some "stuff", none, none, .num 7⟩,
           (⟨some "01/05/2024", some "STARBUCKS #123", none, none,
             .num (Rat.divInt (-9) 2)⟩ : RawRow)]).length :=
  C7_unparseable_date_dropped _ (by decide) (by decide) (by decide)
    ⟨⟨some "01/05/2024", some "STARBUCKS #123", none, none,
      .num (Rat.divInt (-9) 2)⟩, by decide, by decide⟩

/-- C10 counterexample: a one-row batch that passes the raw gate and
whose only date is unparseable nevertheless makes the pipeline fail,
because its amount cell is a non-numeric string and the type derivation
raises TypeError before the date-normalization stage ever drops the row.
So "the pipeline does not fail" does not hold as stated. -/
theorem C10_counterexample :
    validate_raw_data ⟨EXPECTED_COLUMNS,
        [⟨some "notadate", some "x", none, none, .str "abc"⟩]⟩ = .ok () ∧
    (RawDF.mk EXPECTED_COLUMNS
        [⟨some "notadate", some "x", none, none, .str "abc"⟩]).rows.all
      (fun r => (rowDate r).isNone) = true ∧
    clean_transaction_data ⟨EXPECTED_COLUMNS,
        [⟨some "notadate", some "x", none, none, .str "abc"⟩]⟩ =
      .error .typeError := by
  refine ⟨by decide, by decide, by decide⟩

/-- C10 (amended): if a batch passes the raw gate, no amount cell is a
non-numeric string, and every date string is unparseable, the pipeline
does not fail: all rows are dropped at the date-normalization stage, the
resulting empty batch passes the clean gate, and the pipeline returns a
clean batch of zero rows on the success path. -/
theorem C10_all_dates_unparseable (df : RawDF)
    (hv : validate_raw_data df = .ok ())
    (hstr : ∀ r ∈ df.rows, r.amount.isStr = false)
    (hdates : ∀ r ∈ df.rows, rowDate r = none) :
    clean_transaction_data df = .ok ⟨[], true, true⟩ ∧
    validate_clean_data ⟨[], true, true⟩ = .ok () := by
  have hnan : ∀ r ∈ df.rows, (rowDate r).isSome = true → r.amount ≠ Amount.nan := by
    intro r hr hs
    rw [hdates r hr] at hs
    exact absurd hs (by simp)
  have h := pipeline_ok df hv hstr hnan
  have hmem : ∀ r ∈ drop_duplicates df.rows, r ∈ df.rows :=
    fun r hr => ((mem_dedupSeen df.rows [] r).mp hr).1
  have hempty : (drop_duplicates df.rows).filterMap
      (fun r => (rowDate r).map (shapeRow r)) = [] := by
    apply List.filterMap_eq_nil_iff.mpr
    intro r hr
    rw [hdates r (hmem r hr)]
    rfl
  rw [hempty] at h
  exact ⟨h, rfl⟩

/-- Witness for C10: a one-row batch with a numeric amount and an
impossible calendar date succeeds with zero clean rows. -/
theorem C10_witness :
    clean_transaction_data ⟨EXPECTED_COLUMNS,
        [⟨some "31/31/2024", some "x", none, none, .num 2⟩]⟩ =
      .ok ⟨[], true, true⟩ ∧
    validate_clean_data ⟨[], true, true⟩ = .ok () :=
  C10_all_dates_unparseable _ (by decide) (by decide) (by decide)

/-- Shape of the failure artifact for the concrete timestamp and file
name used below, for any error message. -/
theorem move_to_failed_bank (msg : String) :
    move_to_failed "20250101_101010" "bank.csv" msg =
      { movedName := "20250101_101010_bank.csv",
        errorLogName := "20250101_101010_bank_ERROR.txt",
        logLines := [ "Error at: 20250101_101010", "File: bank.csv",
                      "Error: " ++ msg ] } := by
  have h1 : ("20250101_101010" ++ "_" ++ "bank.csv" : String) =
      "20250101_101010_bank.csv" := by decide
  have h2 : strReplace "20250101_101010_bank.csv" ".csv" "_ERROR.txt" =
      "20250101_101010_bank_ERROR.txt" := by decide
  have h3 : ("Error at: " ++ "20250101_101010" : String) =
      "Error at: 20250101_101010" := by decide
  have h4 : ("File: " ++ "bank.csv" : String) = "File: bank.csv" := by decide
  simp [move_to_failed, h1, h2, h3, h4]

/-- C9 counterexample: for a source file named "bank.csv.csv" (which the
watcher accepts, since it only tests the .csv ending), the error artifact
is NOT the moved file stem followed by _ERROR.txt: str.replace replaces
every occurrence of ".csv", giving a doubled _ERROR.txt name.  So "a
sibling error artifact with the same stem and an _ERROR.txt suffix" does
not hold for every file the watcher can process. -/
theorem C9_counterexample :
    (move_to_failed "20250101_101010" "bank.csv.csv" "boom").movedName =
      "20250101_101010_bank.csv.csv" ∧
    (move_to_failed "20250101_101010" "bank.csv.csv" "boom").errorLogName =
      "20250101_101010_bank_ERROR.txt_ERROR.txt" ∧
    (move_to_failed "20250101_101010" "bank.csv.csv" "boom").errorLogName ≠
      "20250101_101010_bank.csv" ++ "_ERROR.txt" := by
  refine ⟨by decide, by decide, by decide⟩

/-- C9 (amended): every error raised while processing one file is caught
at the file-processing boundary and takes the failure route - pipeline
errors and insert errors alike (and the route is a total function, so no
error escapes to terminate the watch loop).  The original file is moved
to the failed destination with a YYYYMMDD_HHMMSS timestamp prefix, and
the error artifact - whose name is the moved name with every occurrence
of ".csv" replaced by "_ERROR.txt", which equals the same stem plus
"_ERROR.txt" whenever ".csv" occurs only as the extension, as here -
contains exactly three lines: the timestamp line, the original file name
line and the error message line. -/
theorem C9_failure_route (e : PipeError) (df : RawDF)
    (ins : CleanDF → Except String ℕ) :
    (clean_transaction_data df = .error e →
        process_file "20250101_101010" "bank.csv" df ins =
          .failed { movedName := "20250101_101010_bank.csv",
                    errorLogName := "20250101_101010_bank_ERROR.txt",
                    logLines := [ "Error at: 20250101_101010",
                                  "File: bank.csv",
                                  "Error: " ++ errMessage e ] }) ∧
    (∀ (cdf : CleanDF) (msg : String), clean_transaction_data df = .ok cdf →
        ins cdf = .error msg →
        process_file "20250101_101010" "bank.csv" df ins =
          .failed { movedName := "20250101_101010_bank.csv",
                    errorLogName := "20250101_101010_bank_ERROR.txt",
                    logLines := [ "Error at: 20250101_101010",
                                  "File: bank.csv",
                                  "Error: " ++ msg ] }) := by
  constructor
  · intro h
    simp only [process_file, h]
    rw [move_to_failed_bank]
  · intro cdf msg h1 h2
    simp only [process_file, h1, h2]
    rw [move_to_failed_bank]

/-- Witness for C9: an empty batch fails the pipeline with
EmptyInputError and is routed to the failed destination with the three
log lines; a good batch whose database insert fails is routed the same
way with the insert error message. -/
theorem C9_witness :
    process_file "20250101_101010" "bank.csv" ⟨EXPECTED_COLUMNS, []⟩
        (fun _ => .ok 0) =
      .failed { movedName := "20250101_101010_bank.csv",
                errorLogName := "20250101_101010_bank_ERROR.txt",
                logLines := [ "Error at: 20250101_101010", "File: bank.csv",
                              "Error: " ++ errMessage .emptyInputError ] } ∧
    process_file "20250101_101010" "bank.csv"
        ⟨EXPECTED_COLUMNS,
          [⟨some "01/05/2024", some "STARBUCKS #123", none, none,
            .num (Rat.divInt (-9) 2)⟩]⟩
        (fun _ => .error "connection refused") =
      .failed { movedName := "20250101_101010_bank.csv",
                errorLogName := "20250101_101010_bank_ERROR.txt",
                logLines := [ "Error at: 20250101_101010", "File: bank.csv",
                              "Error: " ++ "connection refused" ] } :=
  ⟨(C9_failure_route .emptyInputError ⟨EXPECTED_COLUMNS, []⟩
      (fun _ => .ok 0)).1 (by decide),
   (C9_failure_route .typeError
      ⟨EXPECTED_COLUMNS,
        [⟨some "01/05/2024", some "STARBUCKS #123", none, none,
          .num (Rat.divInt (-9) 2)⟩]⟩
      (fun _ => .error "connection refused")).2
     ⟨[⟨some ⟨2024, 1, 5⟩, some "STARBUCKS #123", some "Food & Dining",
        some "Debit", .num (Rat.divInt (-9) 2), some "2024-01"⟩], true, true⟩
     "connection refused" (by decide) rfl⟩

end ETL
